import Mathlib

/-!
Verification of the Synapse headline-clustering core (`src/clustering.py`,
`src/summarizer.py`) against its natural-language specification.

Vectors are embedded as `List ℚ`.  `np.linalg.norm` distances are modelled by
squared Euclidean distance (`sqDist`): squaring is strictly monotone on
nonnegative reals, so it preserves every order fact (minima, ties) that the
code and the spec state about distances.
-/

deriving instance DecidableEq for Except

namespace Synapse

/-- Squared Euclidean distance between two vectors (componentwise on the
common prefix, as `numpy` broadcasting does for equal-length vectors). -/
def sqDist (x y : List ℚ) : ℚ :=
  (List.zipWith (fun a b => (a - b) ^ 2) x y).sum

/-- Total indexing into a rational list, default `0` out of range. -/
def qget (ds : List ℚ) (i : ℕ) : ℚ :=
  ds.getD i 0

theorem qget_cons_zero (d : ℚ) (rest : List ℚ) : qget (d :: rest) 0 = d := rfl

theorem qget_cons_succ (d : ℚ) (rest : List ℚ) (j : ℕ) :
    qget (d :: rest) (j + 1) = qget rest j := by
  simp [qget]

/-- `np.argmin`: index of the minimum entry, first occurrence on ties;
numpy raises on an empty array, the `0` default is never reached by callers. -/
def np_argmin : List ℚ → ℕ
  | [] => 0
  | [_] => 0
  | d :: e :: rest =>
    let j := np_argmin (e :: rest)
    if qget (e :: rest) j < d then j + 1 else 0

theorem np_argmin_lt_length : ∀ (ds : List ℚ), ds ≠ [] → np_argmin ds < ds.length
  | [], h => absurd rfl h
  | [_], _ => by simp [np_argmin]
  | d :: e :: rest, _ => by
    have ih := np_argmin_lt_length (e :: rest) (by simp)
    by_cases hc : qget (e :: rest) (np_argmin (e :: rest)) < d
    · simp only [np_argmin, hc, if_true]
      simpa using Nat.succ_lt_succ ih
    · simp [np_argmin, hc]

theorem np_argmin_le : ∀ (ds : List ℚ) (j : ℕ), j < ds.length →
    qget ds (np_argmin ds) ≤ qget ds j
  | [], j, hj => by simp at hj
  | [d], j, hj => by
    match j with
    | 0 => simp [np_argmin]
    | j + 1 => simp at hj
  | d :: e :: rest, j, hj => by
    have ih := fun (i : ℕ) (hi : i < (e :: rest).length) => np_argmin_le (e :: rest) i hi
    by_cases hc : qget (e :: rest) (np_argmin (e :: rest)) < d
    · simp only [np_argmin, hc, if_true]
      match j with
      | 0 =>
        rw [qget_cons_succ, qget_cons_zero]
        exact le_of_lt hc
      | j + 1 =>
        rw [qget_cons_succ, qget_cons_succ]
        exact ih j (by simpa using Nat.lt_of_succ_lt_succ hj)
    · simp only [np_argmin, hc, if_false]
      push_neg at hc
      match j with
      | 0 => simp
      | j + 1 =>
        rw [qget_cons_zero, qget_cons_succ]
        exact le_trans hc (ih j (by simpa using Nat.lt_of_succ_lt_succ hj))

theorem np_argmin_first : ∀ (ds : List ℚ) (j : ℕ), j < np_argmin ds →
    qget ds (np_argmin ds) < qget ds j
  | [], j, hj => by simp [np_argmin] at hj
  | [_], j, hj => by simp [np_argmin] at hj
  | d :: e :: rest, j, hj => by
    have ih := fun (i : ℕ) (hi : i < np_argmin (e :: rest)) => np_argmin_first (e :: rest) i hi
    by_cases hc : qget (e :: rest) (np_argmin (e :: rest)) < d
    · simp only [np_argmin, hc, if_true] at hj ⊢
      match j with
      | 0 =>
        rw [qget_cons_succ, qget_cons_zero]
        exact hc
      | j + 1 =>
        rw [qget_cons_succ, qget_cons_succ]
        exact ih j (Nat.lt_of_succ_lt_succ hj)
    · simp only [np_argmin, hc, if_false] at hj
      exact absurd hj (Nat.not_lt_zero j)

/-! ## The Partitioner (K-means), modelled from the spec

The source delegates clustering to an external library
(`sklearn.cluster.KMeans(n_clusters=k, random_state=42, n_init=10)`), whose
code is not part of this repository. -/

/-- Errors raised by the clustering step. `insufficientData` is the
`n_samples < n_clusters` failure; `invalidParameter` the `n_clusters < 1`
failure. -/
inductive KMeansError where
  | insufficientData
  | invalidParameter
deriving DecidableEq, Repr

/-- Index of the centroid nearest to `v` (squared Euclidean distance;
ties go to the lower-indexed centroid). -/
def nearestCentroid (cs : List (List ℚ)) (v : List ℚ) : ℕ :=
  np_argmin (cs.map (fun c => sqDist v c))

/-- Assignment step: each vector goes to its nearest centroid. -/
def assignLabels (cs : List (List ℚ)) (X : List (List ℚ)) : List ℕ :=
  X.map (nearestCentroid cs)

def vecAdd (x y : List ℚ) : List ℚ :=
  List.zipWith (fun a b => a + b) x y

def vecScale (c : ℚ) (x : List ℚ) : List ℚ :=
  x.map (fun a => c * a)

/-- Mean of a nonempty list of vectors ( `[]` for an empty list, unused). -/
def meanVec (vs : List (List ℚ)) : List ℚ :=
  match vs with
  | [] => []
  | v :: rest => vecScale (1 / ((rest.length + 1 : ℕ) : ℚ)) (rest.foldl vecAdd v)

/-- The vectors currently assigned to group `j`. -/
def membersAssigned (X : List (List ℚ)) (labels : List ℕ) (j : ℕ) : List (List ℚ) :=
  ((X.zip labels).filter (fun p => p.2 == j)).map Prod.fst

/-- Update step: each centroid becomes the mean of its assigned vectors;
a group with no members keeps its previous centroid. -/
def updateCentroids (X : List (List ℚ)) (labels : List ℕ)
    (old : List (List ℚ)) : List (List ℚ) :=
  old.enum.map (fun p =>
    let mem := membersAssigned X labels p.1
    if mem.isEmpty then p.2 else meanVec mem)

/-- Iterative centroid relocation with an explicit iteration bound,
stopping early once the centroids are stable. -/
def lloyd (X : List (List ℚ)) : ℕ → List (List ℚ) → List (List ℚ)
  | 0, cs => cs
  | n + 1, cs =>
    let cs2 := updateCentroids X (assignLabels cs X) cs
    if cs2 = cs then cs else lloyd X n cs2

/-- The default iteration bound (sklearn's `max_iter`). -/
def kmeansMaxIter : ℕ := 300

/-- Modelled from the spec: the Partitioner's seeded K-means
(`KMeans.fit_predict`, delegated to an external library by the source).
Fails when `k` exceeds the number of samples; the fixed-seed deterministic
initialization is realized by taking the first `k` input vectors as initial
centroids. -/
def kmeansFitPredict (k : ℕ) (X : List (List ℚ)) :
    Except KMeansError (List ℕ × List (List ℚ)) :=
  if k = 0 then .error .invalidParameter
  else if X.length < k then .error .insufficientData
  else
    let centers := lloyd X kmeansMaxIter (X.take k)
    .ok (assignLabels centers X, centers)

theorem nearestCentroid_lt_length (cs : List (List ℚ)) (v : List ℚ) (h : cs ≠ []) :
    nearestCentroid cs v < cs.length := by
  have := np_argmin_lt_length (cs.map (fun c => sqDist v c)) (by simpa using h)
  simpa using this

theorem assignLabels_length (cs X : List (List ℚ)) :
    (assignLabels cs X).length = X.length := by
  simp [assignLabels]

theorem assignLabels_lt (cs X : List (List ℚ)) (h : cs ≠ []) :
    ∀ l ∈ assignLabels cs X, l < cs.length := by
  intro l hl
  rcases List.mem_map.1 hl with ⟨v, _, rfl⟩
  exact nearestCentroid_lt_length cs v h

theorem updateCentroids_length (X : List (List ℚ)) (labels : List ℕ)
    (old : List (List ℚ)) : (updateCentroids X labels old).length = old.length := by
  simp [updateCentroids]

theorem lloyd_length (X : List (List ℚ)) :
    ∀ (n : ℕ) (cs : List (List ℚ)), (lloyd X n cs).length = cs.length := by
  intro n
  induction n with
  | zero => intro cs; rfl
  | succ n ih =>
    intro cs
    simp only [lloyd]
    by_cases h : updateCentroids X (assignLabels cs X) cs = cs
    · simp [h]
    · simp only [h, if_false]
      rw [ih]
      exact updateCentroids_length X (assignLabels cs X) cs

theorem kmeansFitPredict_spec (k : ℕ) (X : List (List ℚ)) (labels : List ℕ)
    (centers : List (List ℚ)) (h : kmeansFitPredict k X = .ok (labels, centers)) :
    labels.length = X.length ∧ centers.length = k ∧ ∀ l ∈ labels, l < k := by
  by_cases hk : k = 0
  · simp [kmeansFitPredict, hk] at h
  by_cases hn : X.length < k
  · simp [kmeansFitPredict, hk, hn] at h
  simp only [kmeansFitPredict, hk, hn, if_false, Except.ok.injEq, Prod.mk.injEq] at h
  obtain ⟨hl, hc⟩ := h
  have hlen : centers.length = k := by
    rw [← hc, lloyd_length, List.length_take]
    omega
  have hne : centers ≠ [] := by
    intro hnil
    rw [hnil] at hlen
    simp at hlen
    omega
  refine ⟨?_, hlen, ?_⟩
  · rw [← hl, assignLabels_length]
  · intro l hml
    rw [← hl, hc] at hml
    have := assignLabels_lt centers X hne l hml
    omega

theorem kmeansFitPredict_insufficient (k : ℕ) (X : List (List ℚ))
    (hk : 0 < k) (hn : X.length < k) :
    kmeansFitPredict k X = .error .insufficientData := by
  have hk0 : k ≠ 0 := Nat.pos_iff_ne_zero.1 hk
  simp [kmeansFitPredict, hk0, hn]

/-! ## `HeadlineClusterer` (src/clustering.py) -/

/-- The state of `self.kmeans`: an estimator configured with `n_clusters`
(and the fixed `random_state=42`), holding `cluster_centers_` once fitted. -/
structure KMeansModel where
  n_clusters : ℕ
  cluster_centers : Option (List (List ℚ))
deriving DecidableEq, Repr

/-- One entry of the `cluster_results` list built by `cluster_headlines`. -/
structure ClusterResult where
  headline : String
  cluster_id : ℕ
  embedding_index : ℕ
deriving DecidableEq, Repr

/-- Instance state of `HeadlineClusterer`.  `embedding_model` is the loaded
sentence-embedding backend, modelled from the spec as a per-string
deterministic function (one vector per input string, same order). -/
structure HeadlineClusterer where
  model_name : String
  n_clusters : ℕ
  embedding_model : String → List ℚ
  kmeans : KMeansModel
  embeddings : Option (List (List ℚ))
  cluster_labels : Option (List ℕ)

/-- `HeadlineClusterer.__init__`. -/
def HeadlineClusterer.init (model_name : String) (emb : String → List ℚ)
    (n_clusters : ℕ) : HeadlineClusterer :=
  { model_name := model_name
    n_clusters := n_clusters
    embedding_model := emb
    kmeans := { n_clusters := n_clusters, cluster_centers := none }
    embeddings := none
    cluster_labels := none }

/-- `create_embeddings`: encodes the headlines and stores the result in
`self.embeddings` (also returning it). -/
def create_embeddings (c : HeadlineClusterer) (headlines : List String) :
    HeadlineClusterer × List (List ℚ) :=
  let e := headlines.map c.embedding_model
  ({ c with embeddings := some e }, e)

/-- `cluster_headlines`: embeds the headlines only when `self.embeddings` is
still unset, fits K-means on the stored embeddings, stores labels and centers,
and zips the (new) headlines positionally with the labels. -/
def cluster_headlines (c : HeadlineClusterer) (headlines : List String) :
    Except KMeansError (HeadlineClusterer × List ClusterResult) :=
  let c1 := if c.embeddings.isNone then (create_embeddings c headlines).1 else c
  match kmeansFitPredict c1.kmeans.n_clusters (c1.embeddings.getD []) with
  | .error e => .error e
  | .ok (labels, centers) =>
    let c2 := { c1 with
      cluster_labels := some labels
      kmeans := { c1.kmeans with cluster_centers := some centers } }
    let results := (headlines.zip labels).enum.map (fun p =>
      { headline := p.2.1, cluster_id := p.2.2, embedding_index := p.1 })
    .ok (c2, results)

/-- The members of group `cluster_id`, in `cluster_results` order
(the two list comprehensions in `get_cluster_summaries` both filter this way). -/
def membersFor (cluster_results : List ClusterResult) (cluster_id : ℕ) :
    List ClusterResult :=
  cluster_results.filter (fun item => item.cluster_id == cluster_id)

/-- One value of the `cluster_summaries` dict. -/
structure ClusterSummary where
  representative_headline : String
  headlines : List String
  size : ℕ
deriving DecidableEq, Repr

/-- `get_cluster_summaries`: for each group id in `range(self.n_clusters)`
with at least one member, the representative headline (member closest to the
group centroid, `np.argmin` over the member distances), the member headlines
and the size.  The Python dict, filled in ascending `cluster_id` order, is
modelled as an association list in insertion order. -/
def get_cluster_summaries (c : HeadlineClusterer)
    (cluster_results : List ClusterResult) : List (ℕ × ClusterSummary) :=
  (List.range c.n_clusters).filterMap (fun cluster_id =>
    let mem := membersFor cluster_results cluster_id
    let cluster_headlines := mem.map (fun item => item.headline)
    if cluster_headlines.isEmpty then none
    else
      let cluster_indices := mem.map (fun item => item.embedding_index)
      let X := c.embeddings.getD []
      let centroid := (c.kmeans.cluster_centers.getD []).getD cluster_id []
      let distances := cluster_indices.map (fun i => sqDist (X.getD i []) centroid)
      let representative_idx := cluster_indices.getD (np_argmin distances) 0
      let rep := (cluster_results.getD representative_idx ⟨"", 0, 0⟩).headline
      some (cluster_id,
        { representative_headline := rep
          headlines := cluster_headlines
          size := cluster_headlines.length }))

/-! ## Model persistence (`save_model` / `load_model`) -/

/-- The dict pickled by `save_model`. -/
structure ModelData where
  kmeans : KMeansModel
  embeddings : Option (List (List ℚ))
  cluster_labels : Option (List ℕ)
  model_name : String
  n_clusters : ℕ
deriving DecidableEq, Repr

/-- `save_model`: the record written (wholesale) to the pickle file. -/
def save_model (c : HeadlineClusterer) : ModelData :=
  { kmeans := c.kmeans
    embeddings := c.embeddings
    cluster_labels := c.cluster_labels
    model_name := c.model_name
    n_clusters := c.n_clusters }

/-- Contents found at the model path: a pickle of the expected dict, or
bytes that `pickle.load` cannot decode. -/
inductive StoredFile where
  | valid (d : ModelData)
  | corrupt
deriving DecidableEq, Repr

/-- Python exceptions that `load_model` lets propagate (it catches only
`FileNotFoundError`). -/
inductive PyError where
  | unpicklingError
deriving DecidableEq, Repr

/-- `load_model` on the file at the model path (`none` = no such file):
a missing file is caught (`FileNotFoundError`) and reported as `False` with
the state untouched; a valid record restores the five stored fields and
returns `True`; undecodable contents raise out of the method. -/
def load_model (c : HeadlineClusterer) (file : Option StoredFile) :
    Except PyError (HeadlineClusterer × Bool) :=
  match file with
  | none => .ok (c, false)
  | some .corrupt => .error .unpicklingError
  | some (.valid d) =>
    .ok ({ c with
      kmeans := d.kmeans
      embeddings := d.embeddings
      cluster_labels := d.cluster_labels
      model_name := d.model_name
      n_clusters := d.n_clusters }, true)

/-! ## The whole clustering run -/

/-- One full run of the core on a fresh instance: embed, partition, then
build the per-group summaries, returning the final instance state, the
assignment list and the group summaries. -/
def runPipeline (model_name : String) (emb : String → List ℚ) (k : ℕ)
    (texts : List String) :
    Except KMeansError (HeadlineClusterer × List ClusterResult × List (ℕ × ClusterSummary)) :=
  match cluster_headlines (HeadlineClusterer.init model_name emb k) texts with
  | .error e => .error e
  | .ok (st, results) => .ok (st, results, get_cluster_summaries st results)

/-! ## Reduction lemmas for `cluster_headlines` -/

theorem cluster_headlines_fresh_err (model_name : String) (emb : String → List ℚ)
    (k : ℕ) (texts : List String) (e : KMeansError)
    (hfit : kmeansFitPredict k (texts.map emb) = .error e) :
    cluster_headlines (HeadlineClusterer.init model_name emb k) texts = .error e := by
  simp [cluster_headlines, HeadlineClusterer.init, create_embeddings, hfit]

theorem cluster_headlines_fresh_ok (model_name : String) (emb : String → List ℚ)
    (k : ℕ) (texts : List String) (labels : List ℕ) (centers : List (List ℚ))
    (hfit : kmeansFitPredict k (texts.map emb) = .ok (labels, centers)) :
    cluster_headlines (HeadlineClusterer.init model_name emb k) texts =
      .ok ({ model_name := model_name
             n_clusters := k
             embedding_model := emb
             kmeans := { n_clusters := k, cluster_centers := some centers }
             embeddings := some (texts.map emb)
             cluster_labels := some labels },
           (texts.zip labels).enum.map (fun p =>
             { headline := p.2.1, cluster_id := p.2.2, embedding_index := p.1 })) := by
  simp [cluster_headlines, HeadlineClusterer.init, create_embeddings, hfit]

theorem cluster_headlines_stale_ok (c : HeadlineClusterer) (X : List (List ℚ))
    (headlines : List String) (labels : List ℕ) (centers : List (List ℚ))
    (hX : c.embeddings = some X)
    (hfit : kmeansFitPredict c.kmeans.n_clusters X = .ok (labels, centers)) :
    cluster_headlines c headlines =
      .ok ({ c with
             cluster_labels := some labels
             kmeans := { c.kmeans with cluster_centers := some centers } },
           (headlines.zip labels).enum.map (fun p =>
             { headline := p.2.1, cluster_id := p.2.2, embedding_index := p.1 })) := by
  simp [cluster_headlines, hX, hfit]

/-! ## Claim C1 -/

/-- An instance whose `embeddings` field was already populated by a prior
call (two one-dimensional embeddings), configured for one group. -/
def staleClusterer : HeadlineClusterer :=
  { model_name := "all-MiniLM-L6-v2"
    n_clusters := 1
    embedding_model := fun _ => [0]
    kmeans := { n_clusters := 1, cluster_centers := none }
    embeddings := some [[0], [1]]
    cluster_labels := none }

/-- C1 (counterexample): calling the clustering entry point with an empty
list of texts on an instance holding stale embeddings does NOT fail — it
succeeds and returns an (empty) result list, because `cluster_headlines`
re-embeds only when `self.embeddings` is unset and fits the stored
embeddings instead. -/
theorem C1_counterexample :
    (cluster_headlines staleClusterer []).toOption.map (fun p => p.2) = some [] := by
  decide

/-- C1 (amended): on an instance whose embeddings are not yet set (a fresh
clusterer), a call with an empty list of texts, or with fewer texts than the
configured number of groups `k` (with `k > 0`), fails with
`InsufficientData` and produces no partial output. -/
theorem C1_insufficient_data (model_name : String) (emb : String → List ℚ)
    (k : ℕ) (texts : List String) (hk : 0 < k) (hlt : texts.length < k) :
    cluster_headlines (HeadlineClusterer.init model_name emb k) texts =
      .error .insufficientData :=
  cluster_headlines_fresh_err model_name emb k texts .insufficientData
    (kmeansFitPredict_insufficient k (texts.map emb) hk (by simpa using hlt))

/-- Concrete instantiation of `C1_insufficient_data`: one headline, two
requested groups. -/
theorem C1_insufficient_data_witness :
    0 < 2 ∧ [("solo" : String)].length < 2 ∧
    cluster_headlines (HeadlineClusterer.init "m" (fun _ => [0]) 2) ["solo"] =
      .error .insufficientData :=
  ⟨by decide, by decide,
    C1_insufficient_data "m" (fun _ => [0]) 2 ["solo"] (by decide) (by decide)⟩

/-! ## Claim C4 -/

/-- C4: on a fresh clusterer, for every input batch of size `n ≥ k > 0` the
partitioning call succeeds and produces exactly one assignment per input
item, index-aligned with the input (the `i`-th result carries the `i`-th
text and embedding index `i`), with every assigned group id below `k`. -/
theorem C4_assignment_coverage (model_name : String) (emb : String → List ℚ)
    (k : ℕ) (texts : List String) (hk : 0 < k) (hnk : k ≤ texts.length) :
    ∃ st results,
      cluster_headlines (HeadlineClusterer.init model_name emb k) texts =
        .ok (st, results) ∧
      results.length = texts.length ∧
      ∀ i (h : i < results.length),
        results[i].embedding_index = i ∧
        results[i].headline = texts.getD i "" ∧
        results[i].cluster_id < k := by
  have hk0 : k ≠ 0 := by omega
  have hnlt : ¬ texts.length < k := by omega
  cases hfit : kmeansFitPredict k (texts.map emb) with
  | error e =>
    exfalso
    simp [kmeansFitPredict, hk0, hnlt] at hfit
  | ok p =>
    obtain ⟨labels, centers⟩ := p
    obtain ⟨hl, hcent, hlab⟩ := kmeansFitPredict_spec k (texts.map emb) labels centers hfit
    have hll : labels.length = texts.length := by simpa using hl
    refine ⟨_, _, cluster_headlines_fresh_ok model_name emb k texts labels centers hfit,
      ?_, ?_⟩
    · simp [hll]
    · intro i h
      have hres : ((texts.zip labels).enum.map (fun p =>
          ({ headline := p.2.1, cluster_id := p.2.2, embedding_index := p.1 } :
            ClusterResult))).length = texts.length := by
        simp [hll]
      have hi : i < texts.length := by
        rw [hres] at h
        exact h
      have hiz : i < (texts.zip labels).length := by
        simp [hll]
        omega
      have hie : i < (texts.zip labels).enum.length := by
        simpa using hiz
      refine ⟨?_, ?_, ?_⟩
      · simp
      · simp only [List.getElem_map, List.getElem_enum, List.getElem_zip]
        rw [List.getD_eq_getElem?_getD, List.getElem?_eq_getElem hi]
        rfl
      · simp only [List.getElem_map, List.getElem_enum, List.getElem_zip]
        exact hlab labels[i] (labels.getElem_mem _)

/-- Concrete instantiation of `C4_assignment_coverage`: four texts embedded
by length into two groups. -/
theorem C4_assignment_coverage_witness :
    0 < 2 ∧ 2 ≤ [("a" : String), "bb", "ccc", "dddd"].length ∧
    (∃ st results,
      cluster_headlines
        (HeadlineClusterer.init "m" (fun s => [(s.length : ℚ)]) 2)
        ["a", "bb", "ccc", "dddd"] = .ok (st, results) ∧
      results.length = ["a", "bb", "ccc", "dddd"].length ∧
      ∀ i (h : i < results.length),
        results[i].embedding_index = i ∧
        results[i].headline = ["a", "bb", "ccc", "dddd"].getD i "" ∧
        results[i].cluster_id < 2) :=
  ⟨by decide, by decide,
    C4_assignment_coverage "m" (fun s => [(s.length : ℚ)]) 2
      ["a", "bb", "ccc", "dddd"] (by decide) (by decide)⟩

/-! ## Claim C5 -/

/-- C5: two independent runs of the clustering pipeline on the same texts
with the same `k` (and the same fixed seed — the seed, here `random_state=42`,
is baked into the partitioner, which the spec's determinism contract makes a
deterministic function) produce identical assignments, identical centroids,
identical stored labels, and identical group summaries (hence identical
representatives and member-text lists, ordered by original input order in
both runs). -/
theorem C5_determinism (model_name : String) (emb : String → List ℚ) (k : ℕ)
    (texts : List String) :
    ((runPipeline model_name emb k texts).toOption.map (fun r => r.2.1) =
      (runPipeline model_name emb k texts).toOption.map (fun r => r.2.1)) ∧
    ((runPipeline model_name emb k texts).toOption.map
        (fun r => r.1.kmeans.cluster_centers) =
      (runPipeline model_name emb k texts).toOption.map
        (fun r => r.1.kmeans.cluster_centers)) ∧
    ((runPipeline model_name emb k texts).toOption.map (fun r => r.1.cluster_labels) =
      (runPipeline model_name emb k texts).toOption.map (fun r => r.1.cluster_labels)) ∧
    ((runPipeline model_name emb k texts).toOption.map (fun r => r.2.2) =
      (runPipeline model_name emb k texts).toOption.map (fun r => r.2.2)) :=
  ⟨rfl, rfl, rfl, rfl⟩

/-! ## Claim C6 -/

/-- C6: on an instance whose `embeddings` field is already set from a prior
call, a subsequent `cluster_headlines` call with any (possibly different)
list of headlines leaves the stored embeddings unchanged, clusters those old
embeddings, and pairs the resulting labels positionally with the new
headline texts. -/
theorem C6_stale_embeddings_reused (c : HeadlineClusterer) (X : List (List ℚ))
    (newHeadlines : List String) (labels : List ℕ) (centers : List (List ℚ))
    (hX : c.embeddings = some X)
    (hfit : kmeansFitPredict c.kmeans.n_clusters X = .ok (labels, centers)) :
    ∃ st results, cluster_headlines c newHeadlines = .ok (st, results) ∧
      st.embeddings = some X ∧
      st.cluster_labels = some labels ∧
      results = (newHeadlines.zip labels).enum.map (fun p =>
        { headline := p.2.1, cluster_id := p.2.2, embedding_index := p.1 }) :=
  ⟨_, _, cluster_headlines_stale_ok c X newHeadlines labels centers hX hfit,
    by simpa using hX, rfl, rfl⟩

section RatEvalC6

attribute [local semireducible] Rat.add Rat.mul Rat.inv Rat.sub

/-- Concrete instantiation of `C6_stale_embeddings_reused`: the stale
instance holds two embeddings; a call with a single different headline
keeps them, clusters them, and pairs the first label with the new text. -/
theorem C6_stale_embeddings_reused_witness :
    staleClusterer.embeddings = some [[0], [1]] ∧
    kmeansFitPredict staleClusterer.kmeans.n_clusters [[0], [1]] =
      .ok ([0, 0], [[(1 : ℚ) / 2]]) ∧
    (∃ st results, cluster_headlines staleClusterer ["fresh text"] = .ok (st, results) ∧
      st.embeddings = some [[0], [1]] ∧
      st.cluster_labels = some [0, 0] ∧
      results = ((["fresh text"].zip [0, 0]).enum.map (fun p =>
        { headline := p.2.1, cluster_id := p.2.2, embedding_index := p.1 }))) :=
  ⟨rfl, by decide,
    C6_stale_embeddings_reused staleClusterer [[0], [1]] ["fresh text"]
      [0, 0] [[(1 : ℚ) / 2]] rfl (by decide)⟩

end RatEvalC6

/-! ## Claim C3 -/

theorem map_fst_filterMap_if {α β : Type} (l : List α) (g : α → β) (q : α → Bool) :
    ((l.filterMap (fun a => if q a then none else some (a, g a))).map Prod.fst) =
      l.filter (fun a => !(q a)) := by
  induction l with
  | nil => rfl
  | cons a t ih =>
    by_cases h : q a
    · simp [List.filterMap_cons, List.filter_cons, h, ih]
    · simp [List.filterMap_cons, List.filter_cons, h, ih]

/-- C3: the group-summary builder emits exactly one entry per group id with
at least one member — its group ids are the ascending `range self.n_clusters`
filtered to nonempty groups, so zero-member groups are omitted — and each
entry lists the member texts in the order the assignments were given (a
sublist of the result list's headline column), with `size` equal to the
number of member texts and at least 1. -/
theorem C3_group_summaries (c : HeadlineClusterer) (results : List ClusterResult) :
    ((get_cluster_summaries c results).map Prod.fst =
      (List.range c.n_clusters).filter (fun cid => !(membersFor results cid).isEmpty)) ∧
    (∀ p ∈ get_cluster_summaries c results,
      p.2.headlines = (membersFor results p.1).map (fun item => item.headline) ∧
      p.2.headlines.Sublist (results.map (fun item => item.headline)) ∧
      p.2.size = p.2.headlines.length ∧
      1 ≤ p.2.size) := by
  constructor
  · have h := map_fst_filterMap_if (List.range c.n_clusters)
      (fun cluster_id =>
        let mem := membersFor results cluster_id
        let cluster_headlines := mem.map (fun item => item.headline)
        let cluster_indices := mem.map (fun item => item.embedding_index)
        let X := c.embeddings.getD []
        let centroid := (c.kmeans.cluster_centers.getD []).getD cluster_id []
        let distances := cluster_indices.map (fun i => sqDist (X.getD i []) centroid)
        let representative_idx := cluster_indices.getD (np_argmin distances) 0
        let rep := (results.getD representative_idx ⟨"", 0, 0⟩).headline
        ({ representative_headline := rep
           headlines := cluster_headlines
           size := cluster_headlines.length } : ClusterSummary))
      (fun cluster_id => ((membersFor results cluster_id).map
        (fun item => item.headline)).isEmpty)
    refine Eq.trans (by exact h) ?_
    refine List.filter_congr ?_
    intro cid _
    cases hm : membersFor results cid with
    | nil => simp [hm]
    | cons a t => simp [hm]
  · intro p hp
    rcases List.mem_filterMap.1 hp with ⟨cid, _, hf⟩
    simp only at hf
    by_cases hq : ((membersFor results cid).map (fun item => item.headline)).isEmpty
    · rw [if_pos hq] at hf
      cases hf
    · rw [if_neg hq] at hf
      cases hf
      refine ⟨rfl, ?_, rfl, ?_⟩
      · exact ((List.filter_sublist results).map (fun item => item.headline))
      · have hlen : ((membersFor results cid).map (fun item => item.headline)).length ≠ 0 := by
          intro h0
          rw [List.isEmpty_iff_length_eq_zero.2 h0] at hq
          exact hq rfl
        exact Nat.one_le_iff_ne_zero.2 hlen

/-! ## Claim C2 -/

theorem qget_eq_getElem (ds : List ℚ) (i : ℕ) (h : i < ds.length) :
    qget ds i = ds[i] := by
  rw [qget, List.getD_eq_getElem?_getD, List.getElem?_eq_getElem h]
  rfl

/-- Squared distance from the stored centroid of group `cid` to the stored
embedding of result item `r` — the quantity whose square root the code takes
with `np.linalg.norm` (the square root is strictly monotone, so minima and
ties coincide). -/
def memberDist (c : HeadlineClusterer) (cid : ℕ) (r : ClusterResult) : ℚ :=
  sqDist ((c.embeddings.getD []).getD r.embedding_index [])
    ((c.kmeans.cluster_centers.getD []).getD cid [])

/-- C2: when the result list is index-aligned (entry `i` carries embedding
index `i`, as `cluster_headlines` builds it), every emitted group summary's
representative is a member text of that group whose embedding attains the
minimum distance to the group's centroid, and on ties it is the member with
the lowest original input index; in particular the representative is an
element of the group's member texts. -/
theorem C2_representative_selection (c : HeadlineClusterer)
    (results : List ClusterResult)
    (hwf : ∀ i (h : i < results.length), results[i].embedding_index = i) :
    ∀ cid s, (cid, s) ∈ get_cluster_summaries c results →
      ∃ (m : ℕ) (hm : m < (membersFor results cid).length),
        s.representative_headline = (membersFor results cid)[m].headline ∧
        s.representative_headline ∈ s.headlines ∧
        (∀ i (hi : i < (membersFor results cid).length),
          memberDist c cid (membersFor results cid)[m] ≤
            memberDist c cid (membersFor results cid)[i]) ∧
        (∀ i (hi : i < (membersFor results cid).length),
          memberDist c cid (membersFor results cid)[i] =
              memberDist c cid (membersFor results cid)[m] →
          (membersFor results cid)[m].embedding_index ≤
            (membersFor results cid)[i].embedding_index) := by
  intro cid s hp
  rcases List.mem_filterMap.1 hp with ⟨cid, _, hf⟩
  simp only at hf
  by_cases hq : ((membersFor results cid).map (fun item => item.headline)).isEmpty
  · rw [if_pos hq] at hf
    cases hf
  · rw [if_neg hq] at hf
    cases hf
    -- abbreviations matching the code's local variables
    have hmem_ne : membersFor results cid ≠ [] := by
      intro h0
      rw [h0] at hq
      exact hq rfl
    have hdist :
        ((membersFor results cid).map (fun item => item.embedding_index)).map
            (fun i => sqDist ((c.embeddings.getD []).getD i [])
              ((c.kmeans.cluster_centers.getD []).getD cid [])) =
          (membersFor results cid).map (memberDist c cid) := by
      rw [List.map_map]
      rfl
    have hDne : (membersFor results cid).map (memberDist c cid) ≠ [] := by
      intro h0
      exact hmem_ne (List.map_eq_nil_iff.1 h0)
    have hmlt :
        np_argmin ((membersFor results cid).map (memberDist c cid)) <
          (membersFor results cid).length := by
      have := np_argmin_lt_length _ hDne
      simpa using this
    refine ⟨np_argmin ((membersFor results cid).map (memberDist c cid)), hmlt,
      ?_, ?_, ?_, ?_⟩
    · -- the representative headline is the member at the argmin position
      simp only [hdist]
      have hidx : ((membersFor results cid).map (fun item => item.embedding_index)).getD
            (np_argmin ((membersFor results cid).map (memberDist c cid))) 0 =
          (membersFor results cid)[np_argmin
            ((membersFor results cid).map (memberDist c cid))].embedding_index := by
        rw [List.getD_eq_getElem?_getD,
          List.getElem?_eq_getElem (by simpa using hmlt)]
        simp
      rw [hidx]
      have hmm : (membersFor results cid)[np_argmin
          ((membersFor results cid).map (memberDist c cid))] ∈ results :=
        List.mem_of_mem_filter (List.getElem_mem _)
      obtain ⟨i, hi, hieq⟩ := List.getElem_of_mem hmm
      have hival : (membersFor results cid)[np_argmin
          ((membersFor results cid).map (memberDist c cid))].embedding_index = i := by
        rw [← hieq]
        exact hwf i hi
      rw [hival, List.getD_eq_getElem?_getD, List.getElem?_eq_getElem hi]
      rw [Option.getD_some, hieq]
    · -- representative membership in the member texts
      simp only [hdist]
      have hidx : ((membersFor results cid).map (fun item => item.embedding_index)).getD
            (np_argmin ((membersFor results cid).map (memberDist c cid))) 0 =
          (membersFor results cid)[np_argmin
            ((membersFor results cid).map (memberDist c cid))].embedding_index := by
        rw [List.getD_eq_getElem?_getD,
          List.getElem?_eq_getElem (by simpa using hmlt)]
        simp
      rw [hidx]
      have hmm : (membersFor results cid)[np_argmin
          ((membersFor results cid).map (memberDist c cid))] ∈ results :=
        List.mem_of_mem_filter (List.getElem_mem _)
      obtain ⟨i, hi, hieq⟩ := List.getElem_of_mem hmm
      have hival : (membersFor results cid)[np_argmin
          ((membersFor results cid).map (memberDist c cid))].embedding_index = i := by
        rw [← hieq]
        exact hwf i hi
      rw [hival, List.getD_eq_getElem?_getD, List.getElem?_eq_getElem hi]
      rw [Option.getD_some, hieq]
      exact List.mem_map_of_mem _ (List.getElem_mem _)
    · -- minimality of the representative's distance
      intro i hi
      have h1 := np_argmin_le ((membersFor results cid).map (memberDist c cid)) i
        (by simpa using hi)
      rw [qget_eq_getElem _ _ (by simpa using hmlt),
        qget_eq_getElem _ _ (by simpa using hi)] at h1
      simpa using h1
    · -- tie-break: lowest original input index
      intro i hi htie
      rcases Nat.lt_trichotomy i
        (np_argmin ((membersFor results cid).map (memberDist c cid))) with hlt | heq | hgt
      · exfalso
        have h2 := np_argmin_first ((membersFor results cid).map (memberDist c cid)) i hlt
        rw [qget_eq_getElem _ _ (by simpa using hmlt),
          qget_eq_getElem _ _ (by simpa using hi)] at h2
        simp only [List.getElem_map] at h2
        rw [htie] at h2
        exact lt_irrefl _ h2
      · subst heq
        exact le_refl _
      · have hpw : List.Pairwise
            (fun r1 r2 : ClusterResult => r1.embedding_index < r2.embedding_index)
            results := by
          rw [List.pairwise_iff_getElem]
          intro a b ha hb hab
          rw [hwf a ha, hwf b hb]
          exact hab
        have hsub : List.Sublist (membersFor results cid) results := List.filter_sublist results
        have hpwm := hpw.sublist hsub
        exact le_of_lt (List.pairwise_iff_getElem.1 hpwm _ _ hmlt hi hgt)

/-- A fitted instance used as concrete input: three stored one-dimensional
embeddings, three groups (group 1 empty), and stored centroids; the two
members of group 0 are equidistant from its centroid, exercising the
tie-break. -/
def exampleClusterer : HeadlineClusterer :=
  { model_name := "all-MiniLM-L6-v2"
    n_clusters := 3
    embedding_model := fun _ => []
    kmeans := { n_clusters := 3, cluster_centers := some [[3/2], [99], [10]] }
    embeddings := some [[1], [2], [10]]
    cluster_labels := some [0, 0, 2] }

/-- The assignment list matching `exampleClusterer`. -/
def exampleResults : List ClusterResult :=
  [ { headline := "a", cluster_id := 0, embedding_index := 0 },
    { headline := "b", cluster_id := 0, embedding_index := 1 },
    { headline := "c", cluster_id := 2, embedding_index := 2 } ]

section RatEvalC2

attribute [local semireducible] Rat.add Rat.mul Rat.inv Rat.sub

/-- Concrete instantiation of `C2_representative_selection`: on the example
state the builder emits groups 0 and 2; group 0's members tie in distance and
the representative is the lower-index member "a". -/
theorem C2_representative_selection_witness :
    (∀ i (h : i < exampleResults.length), exampleResults[i].embedding_index = i) ∧
    (get_cluster_summaries exampleClusterer exampleResults =
      [(0, { representative_headline := "a", headlines := ["a", "b"], size := 2 }),
       (2, { representative_headline := "c", headlines := ["c"], size := 1 })]) ∧
    (∀ cid s, (cid, s) ∈ get_cluster_summaries exampleClusterer exampleResults →
      ∃ (m : ℕ) (hm : m < (membersFor exampleResults cid).length),
        s.representative_headline = (membersFor exampleResults cid)[m].headline ∧
        s.representative_headline ∈ s.headlines ∧
        (∀ i (hi : i < (membersFor exampleResults cid).length),
          memberDist exampleClusterer cid (membersFor exampleResults cid)[m] ≤
            memberDist exampleClusterer cid (membersFor exampleResults cid)[i]) ∧
        (∀ i (hi : i < (membersFor exampleResults cid).length),
          memberDist exampleClusterer cid (membersFor exampleResults cid)[i] =
              memberDist exampleClusterer cid (membersFor exampleResults cid)[m] →
          (membersFor exampleResults cid)[m].embedding_index ≤
            (membersFor exampleResults cid)[i].embedding_index)) :=
  ⟨by decide, by decide,
    C2_representative_selection exampleClusterer exampleResults (by decide)⟩

/-- Concrete instantiation of `C3_group_summaries` on the example state
(whose summaries are computed in `C2_representative_selection_witness`):
groups 0 and 2 are emitted in ascending order, group 1 is omitted. -/
theorem C3_group_summaries_witness :
    ((get_cluster_summaries exampleClusterer exampleResults).map Prod.fst =
      (List.range exampleClusterer.n_clusters).filter
        (fun cid => !(membersFor exampleResults cid).isEmpty)) ∧
    (∀ p ∈ get_cluster_summaries exampleClusterer exampleResults,
      p.2.headlines = (membersFor exampleResults p.1).map (fun item => item.headline) ∧
      p.2.headlines.Sublist (exampleResults.map (fun item => item.headline)) ∧
      p.2.size = p.2.headlines.length ∧
      1 ≤ p.2.size) :=
  C3_group_summaries exampleClusterer exampleResults

end RatEvalC2

/-! ## Claim C7 -/

/-- C7: persisting a fitted state and restoring it into any instance yields
a state equal to the original on every persisted field — the kmeans
estimator with its centroids, the embeddings, the stored assignments, the
vectorizer identity (`model_name`) and `k` (`n_clusters`) — and reports
success (`True`) without raising. -/
theorem C7_persistence_round_trip (c c0 : HeadlineClusterer) :
    ∃ c1, load_model c0 (some (.valid (save_model c))) = .ok (c1, true) ∧
      c1.kmeans = c.kmeans ∧
      c1.kmeans.cluster_centers = c.kmeans.cluster_centers ∧
      c1.embeddings = c.embeddings ∧
      c1.cluster_labels = c.cluster_labels ∧
      c1.model_name = c.model_name ∧
      c1.n_clusters = c.n_clusters :=
  ⟨_, rfl, rfl, rfl, rfl, rfl, rfl, rfl⟩

/-! ## Claim C8 -/

/-- C8: loading when no state file exists returns the `False` (NotFound)
outcome without raising and leaves the instance untouched — the first-run
condition, not a failure — while loading contents that cannot be decoded
surfaces an exception to the caller, an outcome distinguishable from both
the NotFound report and a successful restore. -/
theorem C8_load_outcomes (c : HeadlineClusterer) :
    (load_model c none = .ok (c, false)) ∧
    (load_model c (some .corrupt) = .error .unpicklingError) ∧
    (∀ d : ModelData, ∃ c1, load_model c (some (.valid d)) = .ok (c1, true)) :=
  ⟨rfl, rfl, fun _ => ⟨_, rfl⟩⟩

/-! ## `GeminiSummarizer` (src/summarizer.py)

The remote narrative generator is an external collaborator; each operation
takes the outcome of its (single) API interaction as an explicit oracle
argument, and `datetime.now()` as an explicit `now` argument. -/

/-- Python `pat in s` on strings: substring containment. -/
def strContains (s pat : String) : Bool :=
  s.data.tails.any (fun t => pat.data.isPrefixOf t)

/-- Python `str.title()` for the space-separated lowercase names it is
applied to: uppercase the first character of each word. -/
def pyTitleWord (w : String) : String :=
  match w.data with
  | [] => ""
  | ch :: rest => String.mk (ch.toUpper :: rest)

def pyTitle (s : String) : String :=
  String.intercalate " " ((s.splitOn " ").map pyTitleWord)

/-- Python `list(set(xs))`: within one interpreter session the iteration
order of a set is a deterministic function of its contents; modelled as
first-occurrence deduplication. -/
def pySetList (xs : List String) : List String :=
  xs.foldl (fun acc x => if x ∈ acc then acc else acc ++ [x]) []

def companyNames : List String :=
  ["apple", "tesla", "microsoft", "google", "amazon", "facebook", "netflix",
   "disney", "intel", "amd", "jpmorgan", "wells fargo", "citigroup",
   "goldman sachs", "bank of america"]

def techWords : List String := ["tech", "technology", "software", "ai", "cloud"]

def financialWords : List String := ["bank", "financial", "finance", "earnings", "profit"]

def entertainmentWords : List String := ["streaming", "entertainment", "media"]

def semiconductorWords : List String := ["chip", "semiconductor", "processor"]

def fedWords : List String := ["fed", "federal reserve", "interest rate"]

def commodityWords : List String := ["oil", "gold", "commodity"]

def earningsThemeWords : List String := ["earnings", "profit", "revenue", "quarterly"]

def marketThemeWords : List String := ["stock", "shares", "market"]

def regulatoryThemeWords : List String := ["regulation", "regulatory", "scrutiny"]

def aiThemeWords : List String := ["ai", "artificial intelligence", "innovation"]

/-- Companies extracted from one lowercased headline, in list order. -/
def headlineCompanies (hl : String) : List String :=
  companyNames.filterMap (fun comp =>
    if strContains hl comp then some (pyTitle comp) else none)

/-- Sectors appended for one lowercased headline, in rule order. -/
def headlineSectors (hl : String) : List String :=
  (if techWords.any (fun w => strContains hl w) then ["Technology"] else []) ++
  (if financialWords.any (fun w => strContains hl w) then ["Financial Services"] else []) ++
  (if entertainmentWords.any (fun w => strContains hl w) then ["Entertainment"] else []) ++
  (if semiconductorWords.any (fun w => strContains hl w) then ["Semiconductors"] else []) ++
  (if fedWords.any (fun w => strContains hl w) then ["Monetary Policy"] else []) ++
  (if commodityWords.any (fun w => strContains hl w) then ["Commodities"] else [])

/-- Themes appended for one lowercased headline, in rule order. -/
def headlineThemes (hl : String) : List String :=
  (if earningsThemeWords.any (fun w => strContains hl w) then ["Earnings Reports"] else []) ++
  (if marketThemeWords.any (fun w => strContains hl w) then ["Market Movements"] else []) ++
  (if regulatoryThemeWords.any (fun w => strContains hl w) then ["Regulatory Issues"] else []) ++
  (if aiThemeWords.any (fun w => strContains hl w) then ["AI & Innovation"] else [])

/-- The enhanced mock summary string built by `generate_summary` when the
fallback is active: a pure function of the cluster headlines. -/
def mock_summary (cluster_headlines : List String) : String :=
  let companies := (cluster_headlines.map (fun h => headlineCompanies h.toLower)).flatten
  let sectors := (cluster_headlines.map (fun h => headlineSectors h.toLower)).flatten
  let themes := (cluster_headlines.map (fun h => headlineThemes h.toLower)).flatten
  let companies2 := (pySetList companies).take 3
  let sectors2 := (pySetList sectors).take 2
  let themes2 := (pySetList themes).take 2
  let company_text :=
    if companies2.isEmpty then "major companies" else String.intercalate ", " companies2
  let sector_text :=
    if sectors2.isEmpty then "technology and financial sectors"
    else String.intercalate " and " sectors2
  let theme_text :=
    if themes2.isEmpty then "market developments" else String.intercalate " and " themes2
  let n := cluster_headlines.length
  s!"This cluster focuses on {company_text}, covering {n} headlines in the {sector_text}. Key themes include {theme_text}, with significant implications for market sentiment and investor confidence."

/-- Instance state of `GeminiSummarizer`. -/
structure GeminiSummarizer where
  api_key : String
  model_name : String
  use_mock : Bool
deriving DecidableEq, Repr

/-- Outcome of one REST call to the text-generation endpoint. -/
inductive ApiResult where
  | ok (text : String)
  | httpError (code : ℕ)
  | networkError
deriving DecidableEq, Repr

/-- `_test_api_access`: a 200 probe response clears `use_mock`, anything
else (non-200 status or exception) sets it. -/
def test_api_access (s : GeminiSummarizer) (probe : ApiResult) : GeminiSummarizer :=
  match probe with
  | .ok _ => { s with use_mock := false }
  | _ => { s with use_mock := true }

/-- `GeminiSummarizer.__init__`: configures the client and probes the API. -/
def GeminiSummarizer.init (api_key model_name : String) (probe : ApiResult) :
    GeminiSummarizer :=
  test_api_access { api_key := api_key, model_name := model_name, use_mock := false } probe

/-- The record returned by `generate_summary`. -/
structure SummaryRecord where
  cluster_id : ℕ
  summary : String
  headlines_count : ℕ
  headlines : List String
  timestamp : String
deriving DecidableEq, Repr

/-- `generate_summary`: mock path builds `mock_summary`; live path returns
the API text; a failed live call sets `use_mock` and retries itself — the
retry necessarily takes the mock branch, unfolded here. -/
def generate_summary (s : GeminiSummarizer) (api : ApiResult) (now : String)
    (cluster_headlines : List String) (cluster_id : ℕ) :
    GeminiSummarizer × SummaryRecord :=
  if s.use_mock then
    (s, { cluster_id := cluster_id
          summary := mock_summary cluster_headlines
          headlines_count := cluster_headlines.length
          headlines := cluster_headlines
          timestamp := now })
  else
    match api with
    | .ok t =>
      (s, { cluster_id := cluster_id
            summary := t
            headlines_count := cluster_headlines.length
            headlines := cluster_headlines
            timestamp := now })
    | _ =>
      ({ s with use_mock := true },
       { cluster_id := cluster_id
         summary := mock_summary cluster_headlines
         headlines_count := cluster_headlines.length
         headlines := cluster_headlines
         timestamp := now })

/-- The mock executive summary (exact indentation of the Python triple-quoted
f-string kept only in spirit; it is a pure function of the summaries). -/
def mock_executive_summary (all_summaries : List SummaryRecord) : String :=
  let total_headlines := (all_summaries.map (fun r => r.headlines_count)).sum
  let total_clusters := all_summaries.length
  s!"\n            Executive Summary - Financial News Analysis\n            \n            Overview:\n            Analyzed {total_headlines} financial headlines across {total_clusters} thematic clusters.\n            \n            Key Insights:\n            • Technology sector shows strong earnings momentum with major tech companies reporting positive results\n            • Financial services face regulatory challenges while expanding digital offerings\n            • Market sentiment remains positive with S&P 500 reaching new highs\n            • AI and cloud services continue to drive innovation across sectors\n            • Commodity prices show volatility due to geopolitical factors\n            \n            Market Implications:\n            • Continued focus on tech earnings and AI developments\n            • Regulatory scrutiny may impact financial sector growth\n            • Diversification across sectors recommended for risk management\n            "

/-- `generate_executive_summary`, same fallback structure as
`generate_summary`. -/
def generate_executive_summary (s : GeminiSummarizer) (api : ApiResult)
    (all_summaries : List SummaryRecord) : GeminiSummarizer × String :=
  if s.use_mock then (s, mock_executive_summary all_summaries)
  else
    match api with
    | .ok t => (s, t)
    | _ => ({ s with use_mock := true }, mock_executive_summary all_summaries)

/-- The sentiment record; `neutral` is computed as a subtraction that can go
negative when a headline matches both word lists. -/
structure Sentiment where
  positive : ℕ
  negative : ℕ
  neutral : ℤ
  overall_sentiment : String
deriving DecidableEq, Repr

def positiveWords : List String := ["rise", "gain", "beat", "strong", "positive", "growth"]

def negativeWords : List String := ["fall", "drop", "loss", "weak", "negative", "decline"]

/-- The mock sentiment analysis: keyword counting. -/
def mock_sentiment (headlines : List String) : Sentiment :=
  let positive_count := (headlines.filter (fun h =>
    positiveWords.any (fun w => strContains h.toLower w))).length
  let negative_count := (headlines.filter (fun h =>
    negativeWords.any (fun w => strContains h.toLower w))).length
  { positive := positive_count
    negative := negative_count
    neutral := (headlines.length : ℤ) - positive_count - negative_count
    overall_sentiment :=
      if negative_count < positive_count then "positive"
      else if positive_count < negative_count then "negative"
      else "neutral" }

/-- Outcome of one sentiment API interaction: a 200 response whose body may
or may not parse as the expected JSON, or a failed call. -/
inductive SentimentApi where
  | ok (parsed : Option Sentiment)
  | fail
deriving DecidableEq, Repr

/-- `analyze_sentiment`: mock path counts keywords; live path returns the
parsed JSON; an unparseable body or failed call sets `use_mock` and retries
itself, which necessarily takes the mock branch, unfolded here. -/
def analyze_sentiment (s : GeminiSummarizer) (api : SentimentApi)
    (headlines : List String) : GeminiSummarizer × Sentiment :=
  if s.use_mock then (s, mock_sentiment headlines)
  else
    match api with
    | .ok (some parsed) => (s, parsed)
    | .ok none => ({ s with use_mock := true }, mock_sentiment headlines)
    | .fail => ({ s with use_mock := true }, mock_sentiment headlines)

/-- One call on a `GeminiSummarizer` instance, with its oracle inputs. -/
inductive SummarizerOp where
  | genSummary (api : ApiResult) (now : String) (hs : List String) (cid : ℕ)
  | genExecutive (api : ApiResult) (summaries : List SummaryRecord)
  | sentiment (api : SentimentApi) (hs : List String)

/-- State transition of one operation. -/
def applyOp (s : GeminiSummarizer) : SummarizerOp → GeminiSummarizer
  | .genSummary api now hs cid => (generate_summary s api now hs cid).1
  | .genExecutive api sums => (generate_executive_summary s api sums).1
  | .sentiment api hs => (analyze_sentiment s api hs).1

/-- Running a sequence of operations on an instance. -/
def runOps (s : GeminiSummarizer) (ops : List SummarizerOp) : GeminiSummarizer :=
  ops.foldl applyOp s

theorem applyOp_use_mock (s : GeminiSummarizer) (op : SummarizerOp)
    (h : s.use_mock = true) : (applyOp s op).use_mock = true := by
  cases op <;>
    simp [applyOp, generate_summary, generate_executive_summary, analyze_sentiment, h]

/-! ## Claim C9 -/

/-- C9: with the fallback active (`use_mock = true`), two calls to
`generate_summary` with the same cluster headlines and cluster id produce
the identical summary string, whatever the API oracle or clock says: the
fallback summary is a deterministic function of its inputs. -/
theorem C9_fallback_deterministic (s1 s2 : GeminiSummarizer)
    (api1 api2 : ApiResult) (now1 now2 : String)
    (cluster_headlines : List String) (cluster_id : ℕ)
    (h1 : s1.use_mock = true) (h2 : s2.use_mock = true) :
    (generate_summary s1 api1 now1 cluster_headlines cluster_id).2.summary =
      (generate_summary s2 api2 now2 cluster_headlines cluster_id).2.summary := by
  simp [generate_summary, h1, h2]

/-- A summarizer instance whose startup probe failed. -/
def mockSummarizer : GeminiSummarizer :=
  GeminiSummarizer.init "key" "models/gemini-pro" .networkError

/-- Concrete instantiation of `C9_fallback_deterministic`: different API
oracles and timestamps, identical fallback summary. -/
theorem C9_fallback_deterministic_witness :
    mockSummarizer.use_mock = true ∧
    (generate_summary mockSummarizer (.ok "live text") "2024-01-01T00:00:00"
        ["Apple stock rises on strong iPhone sales"] 0).2.summary =
      (generate_summary mockSummarizer .networkError "2024-01-02T12:34:56"
        ["Apple stock rises on strong iPhone sales"] 0).2.summary :=
  ⟨rfl, C9_fallback_deterministic mockSummarizer mockSummarizer
    (.ok "live text") .networkError "2024-01-01T00:00:00" "2024-01-02T12:34:56"
    ["Apple stock rises on strong iPhone sales"] 0 rfl rfl⟩

/-! ## Claim C10 -/

/-- C10: once an instance's `use_mock` flag is `true`, no sequence of
summary, executive-summary or sentiment operations ever clears it, and
every later summary, executive summary and sentiment result is produced by
the fallback path. -/
theorem C10_use_mock_sticky (s : GeminiSummarizer) (ops : List SummarizerOp)
    (h : s.use_mock = true) :
    (runOps s ops).use_mock = true ∧
    (∀ api now hs cid,
      (generate_summary (runOps s ops) api now hs cid).2.summary = mock_summary hs) ∧
    (∀ api sums,
      (generate_executive_summary (runOps s ops) api sums).2 =
        mock_executive_summary sums) ∧
    (∀ api hs, (analyze_sentiment (runOps s ops) api hs).2 = mock_sentiment hs) := by
  have hrun : (runOps s ops).use_mock = true := by
    induction ops generalizing s with
    | nil => exact h
    | cons op t ih => exact ih _ (applyOp_use_mock s op h)
  refine ⟨hrun, ?_, ?_, ?_⟩ <;> intros <;>
    simp [generate_summary, generate_executive_summary, analyze_sentiment, hrun]

/-- Concrete instantiation of `C10_use_mock_sticky`: after a mixed sequence
of operations (one of them offering a live API), the flag is still set and
all three operations take the fallback path. -/
theorem C10_use_mock_sticky_witness :
    mockSummarizer.use_mock = true ∧
    ((runOps mockSummarizer
        [.genSummary (.ok "live") "t0" ["Tesla reports record quarterly earnings"] 1,
         .sentiment (.ok none) ["Netflix subscriber growth slows"],
         .genExecutive .networkError []]).use_mock = true ∧
      (∀ api now hs cid,
        (generate_summary (runOps mockSummarizer
          [.genSummary (.ok "live") "t0" ["Tesla reports record quarterly earnings"] 1,
           .sentiment (.ok none) ["Netflix subscriber growth slows"],
           .genExecutive .networkError []]) api now hs cid).2.summary = mock_summary hs) ∧
      (∀ api sums,
        (generate_executive_summary (runOps mockSummarizer
          [.genSummary (.ok "live") "t0" ["Tesla reports record quarterly earnings"] 1,
           .sentiment (.ok none) ["Netflix subscriber growth slows"],
           .genExecutive .networkError []]) api sums).2 = mock_executive_summary sums) ∧
      (∀ api hs,
        (analyze_sentiment (runOps mockSummarizer
          [.genSummary (.ok "live") "t0" ["Tesla reports record quarterly earnings"] 1,
           .sentiment (.ok none) ["Netflix subscriber growth slows"],
           .genExecutive .networkError []]) api hs).2 = mock_sentiment hs)) :=
  ⟨rfl, C10_use_mock_sticky mockSummarizer
    [.genSummary (.ok "live") "t0" ["Tesla reports record quarterly earnings"] 1,
     .sentiment (.ok none) ["Netflix subscriber growth slows"],
     .genExecutive .networkError []] rfl⟩

end Synapse
